import Mathlib

/-!
Shallow embedding of `core/join_handle.py` (astrbot_plugin_qqadmin).

The embedding follows the source file:
* `GroupJoinData` — a JSON-file-backed mapping from group id to a per-group
  config dict.  The mapping is modelled as an association list
  `CfgMap = List (String × GroupCfg)`; file persistence (`save`/`_load`) is
  plumbing outside the decision core and is not modelled.
* `JoinHandle.should_approve` — the admission decision function, including its
  side effects on the blacklist and on the in-memory attempt counter `_fail`.
* `JoinHandle.event_monitoring` — the event router; outbound platform calls
  are modelled as an emitted list of `Act`s, and the two external lookups
  (`get_stranger_info`, `get_nickname`) are supplied as oracle parameters and
  additionally recorded as actions.
* `JoinHandle._parse_mode` and `handle_join_review` — modelled over a small
  Python value domain `PyVal`, with the `match` statement's sequence-pattern
  semantics embedded explicitly.

Machine integers: Python ints are unbounded, so they are embedded as `Int`
(`Nat` for the attempt counter, which only ever increments from 0).
-/

/-- Association-list lookup, mirroring Python `dict` access (`dict.get`). -/
def alookup {α : Type} : List (String × α) → String → Option α
  | [], _ => none
  | (k, v) :: rest, key => if k = key then some v else alookup rest key

/-- Association-list key write, mirroring Python `dict[key] = value`:
replaces the binding when the key is present, appends it otherwise. -/
def aset {α : Type} : List (String × α) → String → α → List (String × α)
  | [], key, v => [(key, v)]
  | (k, w) :: rest, key, v =>
    if k = key then (key, v) :: rest else (k, w) :: aset rest key v

/-- One group's config dict.  Stored configs are always created from
`GroupJoinData.default_cfg` (via `ensure_group`) and updated per field, so a
stored config always carries exactly these six keys; the record embeds the
dict directly. -/
structure GroupCfg where
  switch : Bool
  accept_keywords : List String
  reject_keywords : List String
  min_level : Int
  max_time : Int
  block_ids : List String
deriving DecidableEq

/-- The `GroupJoinData._cfg` mapping: group id → config dict. -/
abbrev CfgMap := List (String × GroupCfg)

/-- The `JoinHandle._fail` attempt-counter cache: `"{group_id}_{user_id}"` → count. -/
abbrev FailMap := List (String × Nat)

/-- The plugin-level configuration values read by `GroupJoinData.__init__` and
`JoinHandle` (`config["join_config"]`). -/
structure PluginConf where
  default_switch : Bool
  default_min_level : Int
  default_max_time : Int
  admin_audit : Bool
  leave_notify : Bool
  leave_block : Bool
  welcome_template : String
  ban_time : Int
deriving DecidableEq

/-- `GroupJoinData.default_cfg` as built in `__init__`: configured switch and
thresholds, empty keyword lists and blacklist. -/
def default_cfg (conf : PluginConf) : GroupCfg :=
  { switch := conf.default_switch
    accept_keywords := []
    reject_keywords := []
    min_level := conf.default_min_level
    max_time := conf.default_max_time
    block_ids := [] }

/-- `GroupJoinData.get`: returns the stored config, `none` standing for the
empty dict `{}` returned when the group is absent. -/
def db_get (cfg : CfgMap) (gid : String) : Option GroupCfg :=
  alookup cfg gid

/-- `GroupJoinData.ensure_group`: inserts a copy of the default config when
the group has none, persisting; no-op otherwise. -/
def ensure_group (conf : PluginConf) (cfg : CfgMap) (gid : String) : CfgMap :=
  if (db_get cfg gid).isSome then cfg else aset cfg gid (default_cfg conf)

/-- `GroupJoinData.set`: `ensure_group` followed by a field update of the
(now necessarily present) config; the `getD` fallback is dead code because
`ensure_group` guarantees presence. -/
def db_set (conf : PluginConf) (cfg : CfgMap) (gid : String)
    (f : GroupCfg → GroupCfg) : CfgMap :=
  aset (ensure_group conf cfg gid) gid
    (f ((db_get (ensure_group conf cfg gid) gid).getD (default_cfg conf)))

/-- `GroupJoinData.get_switch`: `self.get(gid).get("switch", False)`. -/
def get_switch (cfg : CfgMap) (gid : String) : Bool :=
  match db_get cfg gid with
  | some g => g.switch
  | none => false

/-- `GroupJoinData.get_accept_keywords`: fallback `[]`. -/
def get_accept_keywords (cfg : CfgMap) (gid : String) : List String :=
  match db_get cfg gid with
  | some g => g.accept_keywords
  | none => []

/-- `GroupJoinData.get_reject_keywords`: fallback `[]`. -/
def get_reject_keywords (cfg : CfgMap) (gid : String) : List String :=
  match db_get cfg gid with
  | some g => g.reject_keywords
  | none => []

/-- `GroupJoinData.get_min_level`: fallback `0`. -/
def get_min_level (cfg : CfgMap) (gid : String) : Int :=
  match db_get cfg gid with
  | some g => g.min_level
  | none => 0

/-- `GroupJoinData.get_max_time`: fallback `0`. -/
def get_max_time (cfg : CfgMap) (gid : String) : Int :=
  match db_get cfg gid with
  | some g => g.max_time
  | none => 0

/-- `GroupJoinData.get_block_ids`: fallback `[]`. -/
def get_block_ids (cfg : CfgMap) (gid : String) : List String :=
  match db_get cfg gid with
  | some g => g.block_ids
  | none => []

/-- `GroupJoinData.set_switch`. -/
def set_switch (conf : PluginConf) (cfg : CfgMap) (gid : String) (b : Bool) : CfgMap :=
  db_set conf cfg gid (fun g => { g with switch := b })

/-- `GroupJoinData.set_block_ids`. -/
def set_block_ids (conf : PluginConf) (cfg : CfgMap) (gid : String)
    (uids : List String) : CfgMap :=
  db_set conf cfg gid (fun g => { g with block_ids := uids })

/-- Keys of a stored config dict: `default_cfg` carries exactly these six
keys and every update writes one of them, so `k in self.db.get(gid)` for a
stored group is membership of `k` in this list. -/
def schema_keys : List String :=
  ["switch", "accept_keywords", "reject_keywords", "min_level", "max_time", "block_ids"]

/-- Python `k in self.db.get(gid)`: key membership in the group's config
dict; the empty dict returned for an absent group contains no keys. -/
def cfgKeyMem (cfg : CfgMap) (gid k : String) : Bool :=
  match db_get cfg gid with
  | some _ => schema_keys.contains k
  | none => false

/-- Python `str.lower()` on a string, character by character (ASCII folding;
the CJK characters appearing in this plugin are fixed points of `lower`). -/
def pyLower (s : String) : String :=
  String.mk (s.data.map Char.toLower)

/-- Prefix test on character lists. -/
def charPrefix : List Char → List Char → Bool
  | [], _ => true
  | _ :: _, [] => false
  | a :: as, b :: bs => a = b && charPrefix as bs

/-- Contiguous-sublist test on character lists: the needle is a prefix of
some suffix of the haystack. -/
def charInfix (needle : List Char) : List Char → Bool
  | [] => charPrefix needle []
  | b :: bs => charPrefix needle (b :: bs) || charInfix needle bs

/-- Python `needle in hay` on strings: contiguous-substring containment. -/
def pyContains (hay needle : String) : Bool :=
  charInfix needle.data hay.data

/-- Python truthiness of an optional string (`if comment:`):
`None` and the empty string are falsy. -/
def pyTruthyStr : Option String → Bool
  | some s => s != ""
  | none => false

/-- Python truthiness of an optional int (`if user_level:`):
`None` and `0` are falsy. -/
def pyTruthyInt : Option Int → Bool
  | some l => l != 0
  | none => false

/-- Reason string of the level rule: `f"QQ等级过低({user_level}<{min_level})"`. -/
def levelLowReason (l m : Int) : String :=
  "QQ等级过低(" ++ toString l ++ "<" ++ toString m ++ ")"

/-- Reason string of the attempt-cap rule:
`f"进群尝试次数已达上限({max_fail}次)"`. -/
def attemptReason (m : Int) : String :=
  "进群尝试次数已达上限(" ++ toString m ++ "次)"

/-- Line 237: `group_id in self.db.get(group_id) and user_id in
self.db.get_block_ids(group_id)` — the blacklist-rule condition as written,
including the group-id-as-key test. -/
def rule1_fires (cfg : CfgMap) (gid uid : String) : Bool :=
  cfgKeyMem cfg gid gid && (get_block_ids cfg gid).contains uid

/-- Line 244: `min_level > 0 and user_level and user_level < min_level`. -/
def rule2_fires (cfg : CfgMap) (gid : String) (ulevel : Option Int) : Bool :=
  decide (0 < get_min_level cfg gid) && pyTruthyInt ulevel
    && decide (ulevel.getD 0 < get_min_level cfg gid)

/-- Lines 248-253: comment truthy and some reject keyword (lower-cased) is a
substring of the lower-cased comment. -/
def rule3_fires (cfg : CfgMap) (gid : String) (comment : Option String) : Bool :=
  pyTruthyStr comment
    && (get_reject_keywords cfg gid).any
      (fun rk => pyContains (pyLower (comment.getD "")) (pyLower rk))

/-- Lines 267-274: comment truthy, the group id is a member of the accept
keyword list (as written in the source), and some accept keyword matches. -/
def rule5_fires (cfg : CfgMap) (gid : String) (comment : Option String) : Bool :=
  pyTruthyStr comment
    && (get_accept_keywords cfg gid).contains gid
    && (get_accept_keywords cfg gid).any
      (fun ak => pyContains (pyLower (comment.getD "")) (pyLower ak))

/-- Line 254: `list(set(self.db.get_block_ids(group_id)) | {user_id})`.
Python's set-to-list element order is unspecified; a canonical deduplicated
order is fixed here (the claims depend only on membership and size). -/
def blockInsert (xs : List String) (u : String) : List String :=
  (u :: xs).dedup

/-- Lines 275-278: the fall-through tail of `should_approve` — accept-keyword
check, else silent approve. -/
def final_verdict (cfg : CfgMap) (gid : String) (comment : Option String) :
    Bool × String :=
  if rule5_fires cfg gid comment then (true, "验证通过") else (true, "")

/-- `self._fail.get(key, 0)`. -/
def failGet (m : FailMap) (k : String) : Nat :=
  (alookup m k).getD 0

/-- `self._fail[key] = n`. -/
def failSet (m : FailMap) (k : String) (n : Nat) : FailMap :=
  aset m k n

/-- Mutable state touched by `should_approve`: the rule store `_cfg` and the
attempt cache `_fail`. -/
structure JoinState where
  cfg : CfgMap
  fail : FailMap
deriving DecidableEq

/-- `JoinHandle.should_approve` (lines 228-278): the decision function,
returning the updated state and the `(approve, reason)` verdict. -/
def should_approve (conf : PluginConf) (st : JoinState) (gid uid : String)
    (comment : Option String) (ulevel : Option Int) :
    JoinState × Bool × String :=
  if rule1_fires st.cfg gid uid then
    (st, false, "黑名单用户")
  else if rule2_fires st.cfg gid ulevel then
    (st, false, levelLowReason (ulevel.getD 0) (get_min_level st.cfg gid))
  else if rule3_fires st.cfg gid comment then
    ({ st with
        cfg := set_block_ids conf st.cfg gid
          (blockInsert (get_block_ids st.cfg gid) uid) },
     false, "命中进群黑词")
  else if 0 < get_max_time st.cfg gid then
    if get_max_time st.cfg gid
        < ((failGet st.fail (gid ++ "_" ++ uid) + 1 : Nat) : Int) then
      ({ st with
          fail := failSet st.fail (gid ++ "_" ++ uid)
            (failGet st.fail (gid ++ "_" ++ uid) + 1) },
       false, attemptReason (get_max_time st.cfg gid))
    else
      ({ st with
          fail := failSet st.fail (gid ++ "_" ++ uid)
            (failGet st.fail (gid ++ "_" ++ uid) + 1) },
       final_verdict st.cfg gid comment)
  else
    (st, final_verdict st.cfg gid comment)

/-- Outbound platform calls and external lookups performed by
`event_monitoring`, recorded in order. -/
inductive Act where
  | getStrangerInfo (uid : String)
  | getNickname (uid : String)
  | sendAdmin (adminId : String) (msg : String)
  | sendGroup (msg : String)
  | resolveRequest (flag : String) (approve : Bool) (reason : String)
  | ban (gid uid : String) (duration : Int)
deriving DecidableEq

/-- Fields of `event.message_obj.raw_message` read by `event_monitoring`;
each is optional, mirroring `raw.get(...)`.  Ids are modelled as the strings
the code ultimately compares. -/
structure RawMessage where
  post_type : Option String
  request_type : Option String
  sub_type : Option String
  notice_type : Option String
  group_id : Option String
  user_id : Option String
  comment : Option String
  flag : Option String
deriving DecidableEq

/-- Result of `client.get_stranger_info`, as read by `event_monitoring`. -/
structure StrangerInfo where
  nickname : Option String
  qqLevel : Option Int
  level : Option Int
deriving DecidableEq

/-- Python `a or b` on optional ints, as in
`stranger_info.get("qqLevel") or stranger_info.get("level")`:
returns `a` when truthy (non-`None`, non-zero), else `b` verbatim. -/
def pyOrLevel (a b : Option Int) : Option Int :=
  match a with
  | some l => if l = 0 then b else some l
  | none => b

/-- Python `a or b` on an optional string with a string fallback, as in
`stranger_info.get("nickname") or "未知昵称"`. -/
def pyOrStr (a : Option String) (b : String) : String :=
  match a with
  | some s => if s = "" then b else s
  | none => b

/-- Python `str.isdigit` restricted to ASCII digits (the ids this plugin
handles), as used on admin ids: non-empty and all digits. -/
def pyIsDigit (s : String) : Bool :=
  s != "" && s.data.all Char.isDigit

/-- `JoinHandle._send_admin`: one private message per admin id that passes
`isdigit` (send failures are logged and skipped, so a send is attempted for
each such id). -/
def send_admin (admin_ids : List String) (message : String) : List Act :=
  (admin_ids.filter pyIsDigit).map (fun a => Act.sendAdmin a message)

/-- Single left-to-right, non-overlapping replacement pass over character
lists, fuelled by the input length (exact for a non-empty pattern, since each
step consumes at least one character). -/
def replaceAux (pat rep : List Char) : Nat → List Char → List Char
  | _, [] => []
  | 0, xs => xs
  | fuel + 1, c :: rest =>
    if charPrefix pat (c :: rest) then
      rep ++ replaceAux pat rep fuel (List.drop pat.length (c :: rest))
    else
      c :: replaceAux pat rep fuel rest

/-- Python `welcome_template.format(nickname=nickname)` for a template whose
only substitution point is `{nickname}`: literal replacement. -/
def formatNickname (template nick : String) : String :=
  String.mk (replaceAux "{nickname}".data nick.data template.data.length template.data)

/-- Body of `event_monitoring` after the switch gate and `ensure_group`
(lines 295-369): the join-request / voluntary-leave / member-increase
branches. -/
def eventBody (conf : PluginConf) (admin_ids : List String) (st : JoinState)
    (r : RawMessage) (stranger : StrangerInfo) (nick : String)
    (selfId : String) : JoinState × List Act :=
  let gid := r.group_id.getD ""
  let uid := r.user_id.getD ""
  if r.post_type = some "request" ∧ r.request_type = some "group"
      ∧ r.sub_type = some "add" then
    let comment := r.comment
    let flag := r.flag.getD ""
    let nickname := pyOrStr stranger.nickname "未知昵称"
    let user_level := pyOrLevel stranger.qqLevel stranger.level
    let reply :=
      "【进群申请】批准/驳回：\n昵称：" ++ nickname ++ "\nQQ：" ++ uid
        ++ "\nflag：" ++ flag
    let reply :=
      match user_level with
      | some l => reply ++ "\n等级：" ++ toString l
      | none => reply
    let reply :=
      match comment with
      | some c => if c = "" then reply else reply ++ "\n" ++ c
      | none => reply
    let notifyActs :=
      if conf.admin_audit then send_admin admin_ids reply
      else [Act.sendGroup reply]
    let res := should_approve conf st gid uid comment user_level
    (res.1,
      Act.getStrangerInfo uid :: notifyActs
        ++ [Act.resolveRequest flag res.2.1
              (if res.2.1 then "" else res.2.2),
            Act.sendGroup
              ("已自动" ++ (if res.2.1 then "批准" else "驳回") ++ ": "
                ++ res.2.2)])
  else if conf.leave_notify = true ∧ r.post_type = some "notice"
      ∧ r.notice_type = some "group_decrease" ∧ r.sub_type = some "leave" then
    let msg := nick ++ "(" ++ uid ++ ") 主动退群了"
    if conf.leave_block then
      ({ st with
          cfg := set_block_ids conf st.cfg gid (get_block_ids st.cfg gid ++ [uid]) },
       [Act.getNickname uid, Act.sendGroup (msg ++ "，已拉进黑名单")])
    else
      (st, [Act.getNickname uid, Act.sendGroup msg])
  else if r.notice_type = some "group_increase" ∧ uid ≠ selfId then
    (st,
      (if conf.welcome_template ≠ "" then
        [Act.getNickname uid,
         Act.sendGroup (formatNickname conf.welcome_template nick)]
      else [])
        ++ (if 0 < conf.ban_time then [Act.ban gid uid conf.ban_time] else []))
  else
    (st, [])

/-- `JoinHandle.event_monitoring` (lines 282-369).  `raw = none` stands for a
`raw_message` that is not a dict; `stranger` is the oracle answer of
`get_stranger_info`, `nick` the oracle answer of `get_nickname`, `selfId` the
bot's own id.  Returns the updated state and the emitted actions in order. -/
def event_monitoring (conf : PluginConf) (admin_ids : List String)
    (st : JoinState) (raw : Option RawMessage) (stranger : StrangerInfo)
    (nick : String) (selfId : String) : JoinState × List Act :=
  match raw with
  | none => (st, [])
  | some r =>
    if !(get_switch st.cfg (r.group_id.getD "")) then (st, [])
    else
      eventBody conf admin_ids
        { st with cfg := ensure_group conf st.cfg (r.group_id.getD "") }
        r stranger nick selfId

/-- Python values that can reach `_parse_mode` and sequence contexts: its
annotated domain is `str | bool | None`; lists are included so that the
sequence-pattern semantics below is non-trivial. -/
inductive PyVal where
  | vstr (s : String)
  | vbool (b : Bool)
  | vnone
  | vlist (xs : List PyVal)

/-- Python literal-pattern equality for the literals appearing in
`_parse_mode` (strings and booleans): `==` across these types is plain
structural equality, and a non-sequence literal never equals a list. -/
def litEq : PyVal → PyVal → Bool
  | .vstr a, .vstr b => a == b
  | .vbool a, .vbool b => a == b
  | .vnone, .vnone => true
  | _, _ => false

/-- Python sequence-pattern matching for a sequence of literal sub-patterns:
the subject must be a sequence instance (`str`, `bytes`, `bool`, `None` are
not matched by sequence patterns) of the same length with elementwise
literal-equal items. -/
def matchSeqPattern (pats : List PyVal) (v : PyVal) : Bool :=
  match v with
  | .vlist xs =>
    xs.length == pats.length
      && (List.zip pats xs).all (fun pv => litEq pv.1 pv.2)
  | _ => false

/-- The comma-separated alternatives of the first `case` of `_parse_mode`
form one open sequence pattern: `case "开", "开启", "on", "true", "1", True:`. -/
def onSeq : List PyVal :=
  [.vstr "开", .vstr "开启", .vstr "on", .vstr "true", .vstr "1", .vbool true]

/-- The sequence pattern of the second `case` of `_parse_mode`:
`case "关", "关闭", "off", "false", "0", False:`. -/
def offSeq : List PyVal :=
  [.vstr "关", .vstr "关闭", .vstr "off", .vstr "false", .vstr "0", .vbool false]

/-- `JoinHandle._parse_mode` (lines 134-143): the `match` statement with its
two sequence-pattern cases and the wildcard default. -/
def parse_mode (mode : PyVal) : Option Bool :=
  if matchSeqPattern onSeq mode then some true
  else if matchSeqPattern offSeq mode then some false
  else none

/-- The annotated input domain of `_parse_mode`: `str | bool | None`. -/
def isDeclaredMode : PyVal → Bool
  | .vlist _ => false
  | _ => true

/-- `JoinHandle.handle_join_review` (lines 147-161): switch set/report,
returning the updated rule store and the text of the reply it sends. -/
def handle_join_review (conf : PluginConf) (cfg : CfgMap) (gid : String)
    (mode_str : PyVal) : CfgMap × String :=
  match parse_mode mode_str with
  | some true => (set_switch conf cfg gid true, "已开启本群进群审核")
  | some false => (set_switch conf cfg gid false, "已关闭本群进群审核")
  | none =>
    (cfg, "本群进群审核：" ++ (if get_switch cfg gid then "开启" else "关闭"))

/-- Baseline plugin configuration used by the concrete witnesses: everything
off / zero. -/
def conf0 : PluginConf :=
  { default_switch := false
    default_min_level := 0
    default_max_time := 0
    admin_audit := false
    leave_notify := false
    leave_block := false
    welcome_template := ""
    ban_time := 0 }

/-- Plugin configuration with non-trivial defaults, for the unseen-group
claims: `default_switch = true`, `default_min_level = 7`,
`default_max_time = 3`. -/
def conf6 : PluginConf :=
  { conf0 with default_switch := true, default_min_level := 7, default_max_time := 3 }

/-- Plugin configuration with leave notification and leave auto-blacklist
enabled, for the hostile-leave claims. -/
def conf7 : PluginConf :=
  { conf0 with leave_notify := true, leave_block := true }

/-- Group config for group "1": review on, user "2" blacklisted, everything
else default. -/
def cfgC1 : CfgMap :=
  [("1", { switch := true, accept_keywords := [], reject_keywords := [],
           min_level := 0, max_time := 0, block_ids := ["2"] })]

/-- State for the blacklist claim: group "1" with "2" on the blacklist. -/
def stC1 : JoinState := { cfg := cfgC1, fail := [] }

/-- State for the reject-keyword claim: group "1" with reject keyword
"spam". -/
def stC2 : JoinState :=
  { cfg := [("1", { switch := true, accept_keywords := [], reject_keywords := ["spam"],
                    min_level := 0, max_time := 0, block_ids := [] })]
    fail := [] }

/-- State for the attempt-cap claim: group "1" with `max_time = 2`, fresh
attempt cache. -/
def stC3 : JoinState :=
  { cfg := [("1", { switch := true, accept_keywords := [], reject_keywords := [],
                    min_level := 0, max_time := 2, block_ids := [] })]
    fail := [] }

/-- State for the level-threshold claim: group "1" with `min_level = 10`. -/
def stC4 : JoinState :=
  { cfg := [("1", { switch := true, accept_keywords := [], reject_keywords := [],
                    min_level := 10, max_time := 0, block_ids := [] })]
    fail := [] }

/-- State for the accept-keyword claim: group "1" with accept keyword
"hello". -/
def stC5 : JoinState :=
  { cfg := [("1", { switch := true, accept_keywords := ["hello"], reject_keywords := [],
                    min_level := 0, max_time := 0, block_ids := [] })]
    fail := [] }

/-- State for the hostile-leave claim: group "1" with review on and "9"
already on the blacklist. -/
def stC7 : JoinState :=
  { cfg := [("1", { switch := true, accept_keywords := [], reject_keywords := [],
                    min_level := 0, max_time := 0, block_ids := ["9"] })]
    fail := [] }

/-- A voluntary-leave notice for group "1" by user "9". -/
def rLeave : RawMessage :=
  { post_type := some "notice", request_type := none, sub_type := some "leave",
    notice_type := some "group_decrease", group_id := some "1",
    user_id := some "9", comment := none, flag := none }

/-- A join-request event for group "1" by user "2". -/
def rJoin : RawMessage :=
  { post_type := some "request", request_type := some "group",
    sub_type := some "add", notice_type := none, group_id := some "1",
    user_id := some "2", comment := some "hi", flag := some "f1" }

/-- A stranger-info answer with no fields set. -/
def stranger0 : StrangerInfo := { nickname := none, qqLevel := none, level := none }

/-- Writing a key and reading it back yields the written value. -/
theorem alookup_aset_self {α : Type} (m : List (String × α)) (k : String) (v : α) :
    alookup (aset m k v) k = some v := by
  induction m with
  | nil => simp [aset, alookup]
  | cons hd tl ih =>
    obtain ⟨a, b⟩ := hd
    by_cases h : a = k
    · subst h
      simp [aset, alookup]
    · simp [aset, alookup, h, ih]

/-- Reading the attempt counter just written. -/
theorem failGet_failSet (m : FailMap) (k : String) (n : Nat) :
    failGet (failSet m k n) k = n := by
  simp [failGet, failSet, alookup_aset_self]

/-- `get_block_ids` after `set_block_ids` on the same group returns the list
just stored. -/
theorem get_block_ids_set_block_ids (conf : PluginConf) (cfg : CfgMap)
    (gid : String) (uids : List String) :
    get_block_ids (set_block_ids conf cfg gid uids) gid = uids := by
  simp [get_block_ids, set_block_ids, db_set, db_get, alookup_aset_self]

/-- The inserted user is a member of the blacklist produced by the
reject-keyword auto-insert. -/
theorem mem_blockInsert_self (xs : List String) (u : String) :
    u ∈ blockInsert xs u := by
  simp [blockInsert, List.mem_dedup]

/-- The level rule never fires on an absent user level. -/
theorem rule2_none (cfg : CfgMap) (gid : String) :
    rule2_fires cfg gid none = false := by
  simp [rule2_fires, pyTruthyInt]

/-- The reject-keyword rule never fires on an absent comment. -/
theorem rule3_none (cfg : CfgMap) (gid : String) :
    rule3_fires cfg gid none = false := by
  simp [rule3_fires, pyTruthyStr]

/-- The accept-keyword rule never fires on an absent comment. -/
theorem rule5_none (cfg : CfgMap) (gid : String) :
    rule5_fires cfg gid none = false := by
  simp [rule5_fires, pyTruthyStr]

/-- With no comment the fall-through tail silently approves. -/
theorem final_verdict_none (cfg : CfgMap) (gid : String) :
    final_verdict cfg gid none = (true, "") := by
  simp [final_verdict, rule5_none]

/-- The fall-through tail always approves. -/
theorem final_verdict_fst (cfg : CfgMap) (gid : String) (c : Option String) :
    (final_verdict cfg gid c).1 = true := by
  unfold final_verdict
  split <;> rfl

/-- The fall-through tail's reason is "验证通过" or empty. -/
theorem final_verdict_snd (cfg : CfgMap) (gid : String) (c : Option String) :
    (final_verdict cfg gid c).2 = "验证通过" ∨ (final_verdict cfg gid c).2 = "" := by
  unfold final_verdict
  split
  · exact Or.inl rfl
  · exact Or.inr rfl

/-- Branch characterization of `should_approve`: the result is produced by
exactly the first rule whose condition holds, mirroring the source's early
returns. -/
theorem should_approve_branches (conf : PluginConf) (st : JoinState)
    (gid uid : String) (comment : Option String) (ulevel : Option Int) :
    (rule1_fires st.cfg gid uid = true
      ∧ should_approve conf st gid uid comment ulevel = (st, false, "黑名单用户"))
    ∨ (rule1_fires st.cfg gid uid = false
      ∧ rule2_fires st.cfg gid ulevel = true
      ∧ should_approve conf st gid uid comment ulevel
          = (st, false, levelLowReason (ulevel.getD 0) (get_min_level st.cfg gid)))
    ∨ (rule1_fires st.cfg gid uid = false
      ∧ rule2_fires st.cfg gid ulevel = false
      ∧ rule3_fires st.cfg gid comment = true
      ∧ should_approve conf st gid uid comment ulevel
          = ({ st with
                cfg := set_block_ids conf st.cfg gid
                  (blockInsert (get_block_ids st.cfg gid) uid) },
             false, "命中进群黑词"))
    ∨ (rule1_fires st.cfg gid uid = false
      ∧ rule2_fires st.cfg gid ulevel = false
      ∧ rule3_fires st.cfg gid comment = false
      ∧ 0 < get_max_time st.cfg gid
      ∧ get_max_time st.cfg gid
          < ((failGet st.fail (gid ++ "_" ++ uid) + 1 : Nat) : Int)
      ∧ should_approve conf st gid uid comment ulevel
          = ({ st with
                fail := failSet st.fail (gid ++ "_" ++ uid)
                  (failGet st.fail (gid ++ "_" ++ uid) + 1) },
             false, attemptReason (get_max_time st.cfg gid)))
    ∨ (rule1_fires st.cfg gid uid = false
      ∧ rule2_fires st.cfg gid ulevel = false
      ∧ rule3_fires st.cfg gid comment = false
      ∧ 0 < get_max_time st.cfg gid
      ∧ ¬ get_max_time st.cfg gid
          < ((failGet st.fail (gid ++ "_" ++ uid) + 1 : Nat) : Int)
      ∧ should_approve conf st gid uid comment ulevel
          = ({ st with
                fail := failSet st.fail (gid ++ "_" ++ uid)
                  (failGet st.fail (gid ++ "_" ++ uid) + 1) },
             final_verdict st.cfg gid comment))
    ∨ (rule1_fires st.cfg gid uid = false
      ∧ rule2_fires st.cfg gid ulevel = false
      ∧ rule3_fires st.cfg gid comment = false
      ∧ ¬ 0 < get_max_time st.cfg gid
      ∧ should_approve conf st gid uid comment ulevel
          = (st, final_verdict st.cfg gid comment)) := by
  by_cases h1 : rule1_fires st.cfg gid uid = true
  · exact Or.inl ⟨h1, by simp [should_approve, h1]⟩
  have h1f : rule1_fires st.cfg gid uid = false := by simpa using h1
  by_cases h2 : rule2_fires st.cfg gid ulevel = true
  · exact Or.inr (Or.inl ⟨h1f, h2, by simp [should_approve, h1f, h2]⟩)
  have h2f : rule2_fires st.cfg gid ulevel = false := by simpa using h2
  by_cases h3 : rule3_fires st.cfg gid comment = true
  · exact Or.inr (Or.inr (Or.inl ⟨h1f, h2f, h3, by simp [should_approve, h1f, h2f, h3]⟩))
  have h3f : rule3_fires st.cfg gid comment = false := by simpa using h3
  by_cases hm : 0 < get_max_time st.cfg gid
  · by_cases hlt : get_max_time st.cfg gid
        < ((failGet st.fail (gid ++ "_" ++ uid) + 1 : Nat) : Int)
    · have hlt2 : get_max_time st.cfg gid
          < (failGet st.fail (gid ++ "_" ++ uid) : Int) + 1 := by
        push_cast at hlt
        exact hlt
      exact Or.inr (Or.inr (Or.inr (Or.inl
        ⟨h1f, h2f, h3f, hm, hlt, by simp [should_approve, h1f, h2f, h3f, hm, hlt2]⟩)))
    · have hlt2 : ¬ get_max_time st.cfg gid
          < (failGet st.fail (gid ++ "_" ++ uid) : Int) + 1 := by
        push_cast at hlt
        exact hlt
      exact Or.inr (Or.inr (Or.inr (Or.inr (Or.inl
        ⟨h1f, h2f, h3f, hm, hlt, by simp [should_approve, h1f, h2f, h3f, hm, hlt2]⟩))))
  · exact Or.inr (Or.inr (Or.inr (Or.inr (Or.inr
      ⟨h1f, h2f, h3f, hm, by simp [should_approve, h1f, h2f, h3f, hm]⟩))))

/-- C1: evaluation of the code at the failing input of the blacklist claim.
User "2" is on group "1"'s `block_ids`, yet `should_approve` approves with an
empty reason, because line 237 tests `group_id in self.db.get(group_id)` —
key membership of the group id in its own config dict, false for ordinary
group ids — instead of gating on the user's blacklist membership.  The claim
(reject with reason "blacklisted user", i.e. "黑名单用户") matches the
spec's intent, not the code. -/
theorem blacklisted_user_not_rejected :
    "2" ∈ get_block_ids stC1.cfg "1"
    ∧ (should_approve conf0 stC1 "1" "2" none none).2 = (true, "") := by
  decide

/-- C5: evaluation of the code at the failing input of the accept-keyword
claim.  Group "1" has accept keyword "hello" and the comment contains
"hello" case-insensitively, yet the verdict reason is empty rather than
"passed verification" ("验证通过"), because line 269 additionally requires
`group_id in self.db.get_accept_keywords(group_id)` — the group id being a
member of the keyword list.  The claim matches the spec's intent, not the
code. -/
theorem accept_keyword_not_honored :
    (get_accept_keywords stC5.cfg "1").any
        (fun ak => pyContains (pyLower "I say hello") (pyLower ak)) = true
    ∧ (should_approve conf0 stC5 "1" "2" (some "I say hello") none).2 = (true, "") := by
  decide

/-- C2: if the blacklist rule and the level rule did not fire and the
non-empty comment case-insensitively contains a configured reject keyword,
`should_approve` rejects with reason "命中进群黑词" ("matched reject
keyword") and the user id is a member of the group's `block_ids` afterwards,
whether or not it was before. -/
theorem reject_keyword_autoblacklist (conf : PluginConf) (st : JoinState)
    (gid uid : String) (c : String) (ulevel : Option Int)
    (h1 : rule1_fires st.cfg gid uid = false)
    (h2 : rule2_fires st.cfg gid ulevel = false)
    (hc : c ≠ "")
    (hk : (get_reject_keywords st.cfg gid).any
        (fun rk => pyContains (pyLower c) (pyLower rk)) = true) :
    (should_approve conf st gid uid (some c) ulevel).2 = (false, "命中进群黑词")
    ∧ uid ∈ get_block_ids (should_approve conf st gid uid (some c) ulevel).1.cfg gid := by
  have h3 : rule3_fires st.cfg gid (some c) = true := by
    simp [rule3_fires, pyTruthyStr, hc, hk]
  have heq : should_approve conf st gid uid (some c) ulevel
      = ({ st with
            cfg := set_block_ids conf st.cfg gid
              (blockInsert (get_block_ids st.cfg gid) uid) },
         false, "命中进群黑词") := by
    simp [should_approve, h1, h2, h3]
  rw [heq]
  refine ⟨rfl, ?_⟩
  show uid ∈ get_block_ids
    (set_block_ids conf st.cfg gid (blockInsert (get_block_ids st.cfg gid) uid)) gid
  rw [get_block_ids_set_block_ids]
  exact mem_blockInsert_self _ _

/-- C2 witness: the end-to-end scenario — group "1" with reject keyword
"spam", comment "this is SPAM content" — is rejected with "命中进群黑词" and
"2" lands on the blacklist. -/
theorem reject_keyword_autoblacklist_witness :
    (should_approve conf0 stC2 "1" "2" (some "this is SPAM content") none).2
      = (false, "命中进群黑词")
    ∧ "2" ∈ get_block_ids
        (should_approve conf0 stC2 "1" "2" (some "this is SPAM content") none).1.cfg "1" :=
  reject_keyword_autoblacklist conf0 stC2 "1" "2" "this is SPAM content" none
    (by decide) (by decide) (by decide) (by decide)

/-- C4 counterexample: the claim as stated fails at `userLevel = 0`.  In
state `stC4` the threshold is 10 and the request's level 0 is present and
strictly below it, yet `should_approve` approves with an empty reason: line
244 tests the Python truthiness of `user_level`, so a known level of 0 is
treated like an absent one. -/
theorem level_zero_skips_threshold :
    get_min_level stC4.cfg "1" = 10 ∧ (0 : Int) < 10
    ∧ (should_approve conf0 stC4 "1" "2" none (some 0)).2 = (true, "") := by
  decide

/-- C4 (amended): if the blacklist rule did not fire, `minLevel > 0`, and the
user level is present, non-zero and strictly below the threshold, the verdict
is a rejection whose reason contains both values
(`"QQ等级过低(" ++ level ++ "<" ++ threshold ++ ")"`); and with an absent
level a rejection can only come from the blacklist, reject-keyword or
attempt-cap rule, never from the level rule. -/
theorem min_level_rule (conf : PluginConf) (st : JoinState) (gid uid : String)
    (comment : Option String) (l : Int)
    (h1 : rule1_fires st.cfg gid uid = false)
    (hmin : 0 < get_min_level st.cfg gid)
    (hl : l ≠ 0)
    (hlt : l < get_min_level st.cfg gid) :
    (should_approve conf st gid uid comment (some l)).2
      = (false, levelLowReason l (get_min_level st.cfg gid))
    ∧ ((should_approve conf st gid uid comment none).2.1 = false →
        (should_approve conf st gid uid comment none).2.2 = "黑名单用户"
        ∨ (should_approve conf st gid uid comment none).2.2 = "命中进群黑词"
        ∨ (should_approve conf st gid uid comment none).2.2
            = attemptReason (get_max_time st.cfg gid)) := by
  constructor
  · have h2 : rule2_fires st.cfg gid (some l) = true := by
      simp [rule2_fires, pyTruthyInt, hmin, hlt, hl]
    simp [should_approve, h1, h2]
  · intro hrej
    rcases should_approve_branches conf st gid uid comment none with
      ⟨_, heq⟩ | ⟨_, ha, _⟩ | ⟨_, _, _, heq⟩ | ⟨_, _, _, _, _, heq⟩
        | ⟨_, _, _, _, _, heq⟩ | ⟨_, _, _, _, heq⟩
    · exact Or.inl (by rw [heq])
    · rw [rule2_none] at ha
      exact Bool.noConfusion ha
    · exact Or.inr (Or.inl (by rw [heq]))
    · exact Or.inr (Or.inr (by rw [heq]))
    · rw [heq] at hrej
      simp [final_verdict_fst] at hrej
    · rw [heq] at hrej
      simp [final_verdict_fst] at hrej

/-- C4 witness: with threshold 10 a level-5 request is rejected with reason
"QQ等级过低(5<10)". -/
theorem min_level_rule_witness :
    (should_approve conf0 stC4 "1" "2" none (some 5)).2
      = (false, levelLowReason 5 (get_min_level stC4.cfg "1"))
    ∧ ((should_approve conf0 stC4 "1" "2" none none).2.1 = false →
        (should_approve conf0 stC4 "1" "2" none none).2.2 = "黑名单用户"
        ∨ (should_approve conf0 stC4 "1" "2" none none).2.2 = "命中进群黑词"
        ∨ (should_approve conf0 stC4 "1" "2" none none).2.2
            = attemptReason (get_max_time stC4.cfg "1")) :=
  min_level_rule conf0 stC4 "1" "2" none 5 (by decide) (by decide) (by decide) (by decide)

/-- C3: when `maxAttempts > 0` and no earlier rule fires, one `should_approve`
call increments the per-`"{group}_{user}"` attempt counter by exactly 1
(starting at 1 on the first call, since the cache starts empty), and the
verdict is a rejection exactly when the new count exceeds `max_time`, in
which case the reason is `"进群尝试次数已达上限(" ++ max ++ "次)"`. -/
theorem attempt_cap (conf : PluginConf) (st : JoinState) (gid uid : String)
    (comment : Option String) (ulevel : Option Int)
    (h1 : rule1_fires st.cfg gid uid = false)
    (h2 : rule2_fires st.cfg gid ulevel = false)
    (h3 : rule3_fires st.cfg gid comment = false)
    (hmax : 0 < get_max_time st.cfg gid) :
    failGet (should_approve conf st gid uid comment ulevel).1.fail (gid ++ "_" ++ uid)
      = failGet st.fail (gid ++ "_" ++ uid) + 1
    ∧ ((should_approve conf st gid uid comment ulevel).2.1 = false
        ↔ get_max_time st.cfg gid
            < ((failGet st.fail (gid ++ "_" ++ uid) + 1 : Nat) : Int))
    ∧ (get_max_time st.cfg gid
          < ((failGet st.fail (gid ++ "_" ++ uid) + 1 : Nat) : Int) →
        (should_approve conf st gid uid comment ulevel).2.2
          = attemptReason (get_max_time st.cfg gid)) := by
  rcases should_approve_branches conf st gid uid comment ulevel with
    ⟨ha, _⟩ | ⟨_, ha, _⟩ | ⟨_, _, ha, _⟩ | ⟨_, _, _, _, hlt, heq⟩
      | ⟨_, _, _, _, hlt, heq⟩ | ⟨_, _, _, hm, _⟩
  · rw [h1] at ha
    exact Bool.noConfusion ha
  · rw [h2] at ha
    exact Bool.noConfusion ha
  · rw [h3] at ha
    exact Bool.noConfusion ha
  · refine ⟨?_, ?_, ?_⟩
    · simp [heq, failGet_failSet]
    · simp [heq, hlt]
      omega
    · intro hx
      simp [heq]
  · refine ⟨?_, ?_, ?_⟩
    · simp [heq, failGet_failSet]
    · simp [heq, final_verdict_fst, hlt]
      omega
    · intro hx
      exact absurd hx hlt
  · exact absurd hmax hm

/-- C3 witness: with `max_time = 2` and a fresh cache, three consecutive
calls for (group "1", user "2") yield approve, approve, reject with reason
"进群尝试次数已达上限(2次)"; and the general theorem instantiated at the
first call. -/
theorem attempt_cap_witness :
    ((should_approve conf0 stC3 "1" "2" none none).2 = (true, "")
      ∧ (should_approve conf0 (should_approve conf0 stC3 "1" "2" none none).1
          "1" "2" none none).2 = (true, "")
      ∧ (should_approve conf0
          (should_approve conf0 (should_approve conf0 stC3 "1" "2" none none).1
            "1" "2" none none).1 "1" "2" none none).2
          = (false, "进群尝试次数已达上限(2次)"))
    ∧ (failGet (should_approve conf0 stC3 "1" "2" none none).1.fail ("1" ++ "_" ++ "2")
        = failGet stC3.fail ("1" ++ "_" ++ "2") + 1
      ∧ ((should_approve conf0 stC3 "1" "2" none none).2.1 = false
          ↔ get_max_time stC3.cfg "1"
              < ((failGet stC3.fail ("1" ++ "_" ++ "2") + 1 : Nat) : Int))
      ∧ (get_max_time stC3.cfg "1"
            < ((failGet stC3.fail ("1" ++ "_" ++ "2") + 1 : Nat) : Int) →
          (should_approve conf0 stC3 "1" "2" none none).2.2
            = attemptReason (get_max_time stC3.cfg "1"))) :=
  ⟨by decide,
   attempt_cap conf0 stC3 "1" "2" none none (by decide) (by decide) (by decide) (by decide)⟩

/-- C6 counterexample: the claim as stated fails for an unseen group under
non-trivial configured defaults.  `get` returns the empty dict (`none`), not
an all-default config, and the quick-read accessors observe the hard-coded
fallbacks `False`/`0`, not `default_switch = true`, `default_min_level = 7`,
`default_max_time = 3`. -/
theorem unseen_group_not_default :
    conf6.default_switch = true ∧ conf6.default_min_level = 7
    ∧ db_get ([] : CfgMap) "1" = none
    ∧ db_get ([] : CfgMap) "1" ≠ some (default_cfg conf6)
    ∧ get_switch ([] : CfgMap) "1" ≠ conf6.default_switch
    ∧ get_min_level ([] : CfgMap) "1" ≠ conf6.default_min_level
    ∧ get_max_time ([] : CfgMap) "1" ≠ conf6.default_max_time := by
  decide

/-- C6 (amended): for a group with no stored config, `get` returns the empty
dict (a pure read — the store is not modified or persisted), and the
quick-read accessors observe the hard-coded per-field fallbacks
(`False`, `[]`, `0`), not the configured defaults; the configured defaults
only materialize when `ensure_group` (reached by mutations and by the
enabled monitoring path) stores `default_cfg`. -/
theorem unseen_group_reads (conf : PluginConf) (cfg : CfgMap) (gid : String)
    (h : db_get cfg gid = none) :
    get_switch cfg gid = false
    ∧ get_accept_keywords cfg gid = []
    ∧ get_reject_keywords cfg gid = []
    ∧ get_min_level cfg gid = 0
    ∧ get_max_time cfg gid = 0
    ∧ get_block_ids cfg gid = []
    ∧ db_get (ensure_group conf cfg gid) gid = some (default_cfg conf) := by
  refine ⟨?_, ?_, ?_, ?_, ?_, ?_, ?_⟩ <;>
    simp [get_switch, get_accept_keywords, get_reject_keywords, get_min_level,
      get_max_time, get_block_ids, ensure_group, db_get, h, alookup_aset_self,
      show alookup cfg gid = none from h]

/-- C6 witness: the amended reads at the concrete unseen group "1" of an
empty store under `conf6`. -/
theorem unseen_group_reads_witness :
    get_switch ([] : CfgMap) "1" = false
    ∧ get_accept_keywords ([] : CfgMap) "1" = []
    ∧ get_reject_keywords ([] : CfgMap) "1" = []
    ∧ get_min_level ([] : CfgMap) "1" = 0
    ∧ get_max_time ([] : CfgMap) "1" = 0
    ∧ get_block_ids ([] : CfgMap) "1" = []
    ∧ db_get (ensure_group conf6 ([] : CfgMap) "1") "1" = some (default_cfg conf6) :=
  unseen_group_reads conf6 [] "1" (by decide)

/-- C7 counterexample: the claim as stated fails on the hostile-leave
trigger.  User "9" is already on group "1"'s blacklist; after a voluntary
leave by "9" with `leave_block` enabled, `event_monitoring` appends the id
again (line 344 concatenates `+ [user_id]` with no union), so the blacklist
becomes `["9", "9"]` — its size changes and it now contains a duplicate. -/
theorem leave_block_duplicates :
    "9" ∈ get_block_ids stC7.cfg "1"
    ∧ (get_block_ids stC7.cfg "1").length = 1
    ∧ get_block_ids
        (event_monitoring conf7 [] stC7 (some rLeave) stranger0 "昵称" "0").1.cfg "1"
        = ["9", "9"]
    ∧ ¬ (get_block_ids
        (event_monitoring conf7 [] stC7 (some rLeave) stranger0 "昵称" "0").1.cfg "1").Nodup := by
  decide

/-- C7 (amended): only the reject-keyword auto-insert
(`list(set(block_ids) | {user_id})`, embedded as `blockInsert`) has union
semantics — inserting an already-present user into a duplicate-free
blacklist keeps its size, the result is duplicate-free, and membership is
the union of the old list and the new id.  The hostile-leave trigger instead
appends unconditionally (and can duplicate), and the admin command replaces
the whole list. -/
theorem blockInsert_union (xs : List String) (u : String)
    (hmem : u ∈ xs) (hnd : xs.Nodup) :
    (blockInsert xs u).length = xs.length
    ∧ (blockInsert xs u).Nodup
    ∧ ∀ x, x ∈ blockInsert xs u ↔ (x ∈ xs ∨ x = u) := by
  have he : blockInsert xs u = xs := by
    unfold blockInsert
    rw [List.dedup_cons_of_mem hmem, List.dedup_eq_self.2 hnd]
  rw [he]
  exact ⟨rfl, hnd, fun x => ⟨Or.inl, fun hx => hx.elim id (fun e => e ▸ hmem)⟩⟩

/-- C7 witness: union-inserting "9" into the singleton blacklist `["9"]`. -/
theorem blockInsert_union_witness :
    (blockInsert ["9"] "9").length = 1
    ∧ (blockInsert ["9"] "9").Nodup
    ∧ ("8" ∈ blockInsert ["9"] "9" ↔ ("8" ∈ (["9"] : List String) ∨ "8" = "9")) :=
  ⟨(blockInsert_union ["9"] "9" (by decide) (by decide)).1,
   (blockInsert_union ["9"] "9" (by decide) (by decide)).2.1,
   (blockInsert_union ["9"] "9" (by decide) (by decide)).2.2 "8"⟩

/-- C8: for any inbound event whose group's switch reads false,
`event_monitoring` returns with the state untouched (no `ensure_group`, no
`should_approve`, no attempt recorded) and no outbound action — not even the
stranger-info lookup. -/
theorem disabled_group_no_action (conf : PluginConf) (admin_ids : List String)
    (st : JoinState) (r : RawMessage) (stranger : StrangerInfo)
    (nick selfId : String)
    (h : get_switch st.cfg (r.group_id.getD "") = false) :
    event_monitoring conf admin_ids st (some r) stranger nick selfId = (st, []) := by
  simp [event_monitoring, h]

/-- C8 witness: a join request for group "1" against an empty store (switch
reads false) is fully ignored. -/
theorem disabled_group_no_action_witness :
    event_monitoring conf0 [] { cfg := [], fail := [] } (some rJoin) stranger0 "n" "0"
      = ({ cfg := [], fail := [] }, []) :=
  disabled_group_no_action conf0 [] { cfg := [], fail := [] } rJoin stranger0 "n" "0"
    (by decide)

/-- C9: `should_approve` is total — for every group id, user id, optional
comment and optional user level it returns an `(approve, reason)` pair (the
embedding is a total function, mirroring that every Python branch returns) —
and an absent optional input merely skips the rules depending on it: with no
comment the store is not mutated, any approval carries the empty reason, and
any rejection stems from the blacklist, level or attempt rule; with no user
level any rejection stems from the blacklist, reject-keyword or attempt
rule. -/
theorem should_approve_total (conf : PluginConf) (st : JoinState)
    (gid uid : String) (comment : Option String) (ulevel : Option Int) :
    ∃ (st2 : JoinState) (ok : Bool) (r : String),
      should_approve conf st gid uid comment ulevel = (st2, ok, r)
      ∧ (comment = none → st2.cfg = st.cfg ∧ (ok = true → r = ""))
      ∧ (comment = none → ok = false →
          r = "黑名单用户"
          ∨ r = levelLowReason (ulevel.getD 0) (get_min_level st.cfg gid)
          ∨ r = attemptReason (get_max_time st.cfg gid))
      ∧ (ulevel = none → ok = false →
          r = "黑名单用户" ∨ r = "命中进群黑词"
          ∨ r = attemptReason (get_max_time st.cfg gid)) := by
  rcases should_approve_branches conf st gid uid comment ulevel with
    ⟨_, heq⟩ | ⟨_, ha2, heq⟩ | ⟨_, _, ha3, heq⟩ | ⟨_, _, _, _, _, heq⟩
      | ⟨_, _, _, _, _, heq⟩ | ⟨_, _, _, _, heq⟩
  · refine ⟨st, false, "黑名单用户", heq, ?_, ?_, ?_⟩
    · exact fun _ => ⟨rfl, fun hb => Bool.noConfusion hb⟩
    · exact fun _ _ => Or.inl rfl
    · exact fun _ _ => Or.inl rfl
  · refine ⟨st, false, levelLowReason (ulevel.getD 0) (get_min_level st.cfg gid),
      heq, ?_, ?_, ?_⟩
    · exact fun _ => ⟨rfl, fun hb => Bool.noConfusion hb⟩
    · exact fun _ _ => Or.inr (Or.inl rfl)
    · intro hu _
      subst hu
      rw [rule2_none] at ha2
      exact Bool.noConfusion ha2
  · refine ⟨_, false, "命中进群黑词", heq, ?_, ?_, ?_⟩
    · intro hc
      subst hc
      rw [rule3_none] at ha3
      exact Bool.noConfusion ha3
    · intro hc
      subst hc
      rw [rule3_none] at ha3
      exact Bool.noConfusion ha3
    · exact fun _ _ => Or.inr (Or.inl rfl)
  · refine ⟨_, false, attemptReason (get_max_time st.cfg gid), heq, ?_, ?_, ?_⟩
    · exact fun _ => ⟨rfl, fun hb => Bool.noConfusion hb⟩
    · exact fun _ _ => Or.inr (Or.inr rfl)
    · exact fun _ _ => Or.inr (Or.inr rfl)
  · refine ⟨_, (final_verdict st.cfg gid comment).1, (final_verdict st.cfg gid comment).2,
      by rw [heq], ?_, ?_, ?_⟩
    · intro hc
      subst hc
      refine ⟨rfl, fun _ => ?_⟩
      rw [final_verdict_none]
    · intro hc hb
      rw [final_verdict_fst] at hb
      exact Bool.noConfusion hb
    · intro _ hb
      rw [final_verdict_fst] at hb
      exact Bool.noConfusion hb
  · refine ⟨st, (final_verdict st.cfg gid comment).1, (final_verdict st.cfg gid comment).2,
      by rw [heq], ?_, ?_, ?_⟩
    · intro hc
      subst hc
      refine ⟨rfl, fun _ => ?_⟩
      rw [final_verdict_none]
    · intro hc hb
      rw [final_verdict_fst] at hb
      exact Bool.noConfusion hb
    · intro _ hb
      rw [final_verdict_fst] at hb
      exact Bool.noConfusion hb

/-- C10: over the annotated input domain of `_parse_mode`
(`str | bool | None`), every input — including "on"/"off"/"开"/"关" and the
booleans — falls through to the wildcard and yields `None`, because the
comma-separated case alternatives form sequence patterns that no string or
boolean can match; consequently `handle_join_review` never reaches the
switch-setting branches and always replies with the status report, leaving
the store unchanged. -/
theorem parse_mode_always_none (conf : PluginConf) (cfg : CfgMap) (gid : String)
    (v : PyVal) (h : isDeclaredMode v = true) :
    parse_mode v = none
    ∧ handle_join_review conf cfg gid v
        = (cfg, "本群进群审核：" ++ (if get_switch cfg gid then "开启" else "关闭")) := by
  have hp : parse_mode v = none := by
    cases v with
    | vstr s => rfl
    | vbool b => rfl
    | vnone => rfl
    | vlist xs => exact absurd h (by simp [isDeclaredMode])
  refine ⟨hp, ?_⟩
  simp [handle_join_review, hp]

/-- C10 witness: the concrete input "开" (which the source plainly intends to
switch the review on) yields `None` and the status-report reply. -/
theorem parse_mode_always_none_witness :
    parse_mode (.vstr "开") = none
    ∧ handle_join_review conf0 [] "1" (.vstr "开")
        = (([] : CfgMap),
           "本群进群审核：" ++ (if get_switch ([] : CfgMap) "1" then "开启" else "关闭")) :=
  parse_mode_always_none conf0 [] "1" (.vstr "开") (by decide)
